import Mathlib

/-!
Shallow embedding of the detached interactive session protocol of
interactive-mcp: the single-question liveness-aware waiter
(`getCmdWindowInput` in src/commands/intensive-chat/ui.tsx, final
revision with heartbeat and options file), the caller-side outcome
mapping (`request_user_input` handler in src/index.ts), and the
intensive-chat session registry (src/cmd-intensive-chat.ts).

Times are in milliseconds, modelled as `Int` where the source computes
differences of `Date.now()` and file modification times.
-/

/-- Result of `fs.stat` on the heartbeat file, as the source branches on
it: a modification time, an ENOENT (file absent), or another error. -/
inductive HbStat where
  | mtime (m : Int)
  | enoent
  | otherErr
deriving DecidableEq

/-- State of the single-question waiter promise in `getCmdWindowInput`:
the three cancellable handles (`watcher`, `timeoutHandle`,
`heartbeatInterval`), the `heartbeatFileSeen` flag, the recorded
`startTime`, in-flight async file reads started by the watcher callback
(content `some c`, or `none` for a read that will fail), the promise
resolution (first value wins), and a count of how many times the
`cleanupAndResolve` body has run. -/
structure WaiterState where
  watcherOpen : Bool
  timeoutActive : Bool
  heartbeatActive : Bool
  heartbeatFileSeen : Bool
  startTime : Int
  pendingReads : List (Option String)
  resolved : Option String
  cleanupRuns : Nat
deriving DecidableEq

/-- Waiter state right after setup: watcher, deadline timer and
heartbeat interval installed, heartbeat file not yet seen. -/
def initWaiter : WaiterState :=
  { watcherOpen := true
    timeoutActive := true
    heartbeatActive := true
    heartbeatFileSeen := false
    startTime := 0
    pendingReads := []
    resolved := none
    cleanupRuns := 0 }

/-- `cleanupAndResolve(response)`: clears the heartbeat interval, closes
the watcher, clears the deadline timer, deletes the workspace files
(best effort), and resolves the promise.  A JS promise keeps its first
resolution value, hence `getD`. -/
def cleanupAndResolve (s : WaiterState) (response : String) : WaiterState :=
  { s with
    watcherOpen := false
    timeoutActive := false
    heartbeatActive := false
    cleanupRuns := s.cleanupRuns + 1
    resolved := some (s.resolved.getD response) }

/-- Drop leading whitespace characters from a character list. -/
def dropLeadingWs : List Char → List Char
  | [] => []
  | c :: cs => if c.isWhitespace then dropLeadingWs cs else c :: cs

/-- Drop trailing whitespace characters from a character list. -/
def dropTrailingWs (l : List Char) : List Char :=
  (dropLeadingWs l.reverse).reverse

/-- JS `String.prototype.trim()`: remove whitespace from both ends. -/
def jsTrim (s : String) : String :=
  ⟨dropTrailingWs (dropLeadingWs s.data)⟩

/-- Body of the watcher change callback after the async read returned
`content`: resolve with `content.trim()` only when the content is
non-empty (`if (data)`). -/
def watcherBody (s : WaiterState) (content : String) : WaiterState :=
  if content ≠ "" then cleanupAndResolve s (jsTrim content) else s

/-- One tick of the heartbeat interval, given the current time and the
`fs.stat` outcome: stale mtime (older than 3000 ms) resolves dead;
a fresh file marks `heartbeatFileSeen`; ENOENT resolves dead when the
file had been seen before, or when the 7000 ms post-launch grace period
has elapsed; any other stat error resolves dead. -/
def heartbeatCheck (s : WaiterState) (now : Int) (hb : HbStat) : WaiterState :=
  match hb with
  | .mtime m =>
      if now - m > 3000 then cleanupAndResolve s ""
      else { s with heartbeatFileSeen := true }
  | .enoent =>
      if s.heartbeatFileSeen then cleanupAndResolve s ""
      else if now - s.startTime > 7000 then cleanupAndResolve s ""
      else s
  | .otherErr => cleanupAndResolve s ""

/-- `ui.on('exit', handleExit)`: resolve with the empty answer when the
exit code differs from 0 (`none` models a signal exit, JS `null`) and
the wait is still pending (`watcher || timeoutHandle`). -/
def handleExit (s : WaiterState) (code : Option Int) : WaiterState :=
  if code ≠ some 0 ∧ (s.watcherOpen = true ∨ s.timeoutActive = true) then
    cleanupAndResolve s ""
  else s

/-- `ui.on('error', handleError)`: resolve with the empty answer when
the wait is still pending. -/
def handleError (s : WaiterState) : WaiterState :=
  if s.watcherOpen = true ∨ s.timeoutActive = true then cleanupAndResolve s ""
  else s

/-- Events the waiter can observe.  A watcher `change` event starts an
async read (`readStart`, carrying the content the read will return, or
`none` for a failing read); the read completes later (`readDone`).
Heartbeat polls carry the current time and the stat outcome.  The
deadline timer, the child exit event and the child error event are the
remaining triggers. -/
inductive WaiterEvent where
  | readStart (c : Option String)
  | readDone
  | hbPoll (now : Int) (hb : HbStat)
  | deadline
  | procExit (code : Option Int)
  | procError
deriving DecidableEq

/-- Small-step transition of the waiter.  Event sources are guarded by
their live handles (a closed watcher emits no events, cleared timers do
not fire), but an async read that already started completes and runs its
callback body unconditionally, exactly as in the source. -/
def waiterStep (s : WaiterState) : WaiterEvent → WaiterState
  | .readStart c =>
      if s.watcherOpen then { s with pendingReads := s.pendingReads ++ [c] } else s
  | .readDone =>
      match s.pendingReads with
      | [] => s
      | c :: rest =>
        match c with
        | some content => watcherBody { s with pendingReads := rest } content
        | none => cleanupAndResolve { s with pendingReads := rest } ""
  | .hbPoll now hb => if s.heartbeatActive then heartbeatCheck s now hb else s
  | .deadline => if s.timeoutActive then cleanupAndResolve s "" else s
  | .procExit code => handleExit s code
  | .procError => handleError s

/-- Run the waiter from the initial state over a list of events. -/
def runWaiter (evs : List WaiterEvent) : WaiterState :=
  evs.foldl waiterStep initWaiter

/-- The caller-facing mapping of `request_user_input` in src/index.ts:
`__TIMEOUT__` and the empty string are mapped to fixed sentences, any
other answer is echoed. -/
def requestUserInputText (answer : String) : String :=
  if answer = "__TIMEOUT__" then "User did not reply: Timeout occurred."
  else if answer = "" then "User replied with empty input."
  else "User replied: " ++ answer

/-- Modelled from the spec: a single trailing-whitespace trim (the spec
round-trip rule), to compare with what the source computes. -/
def trailingTrim (s : String) : String := ⟨dropTrailingWs s.data⟩

/-- After the first cleanup: at least one cleanup run and all three
handles cleared. -/
def cleanedUp (s : WaiterState) : Prop :=
  1 ≤ s.cleanupRuns ∧ s.watcherOpen = false ∧ s.timeoutActive = false ∧
    s.heartbeatActive = false

/-- Concrete trace: the parent hard-deadline timer fires with no UI
activity. -/
def deadlineTrace : List WaiterEvent := [.deadline]

/-- Concrete trace: a heartbeat poll at 4000 ms finds an mtime of 0,
older than the 3000 ms staleness threshold. -/
def deadUiTrace : List WaiterEvent := [.hbPoll 4000 (.mtime 0)]

/-- Concrete trace: the heartbeat is seen fresh, the user submits an
empty answer (the UI writes the empty string, which the watcher
ignores), the UI then exits cleanly, and the next heartbeat poll finds
the file gone. -/
def emptySubmitTrace : List WaiterEvent :=
  [.hbPoll 1500 (.mtime 1500), .readStart (some ""), .readDone,
   .procExit (some 0), .hbPoll 6000 .enoent]

/-- Concrete trace: the UI countdown expires and writes the
`__TIMEOUT__` indicator into the response file. -/
def uiTimeoutTrace : List WaiterEvent :=
  [.readStart (some "__TIMEOUT__"), .readDone]

/-- Concrete trace: the watcher read of a real answer is in flight when
the deadline timer fires; the read then completes and its callback runs
the cleanup body a second time. -/
def doubleCleanupTrace : List WaiterEvent :=
  [.readStart (some "hi"), .deadline, .readDone]

/-! ## Timed model of the single-question waiter

`getCmdWindowInput` records `startTime`, writes the empty response
file, sleeps 500 ms, then installs the watcher, a heartbeat interval of
1500 ms and the deadline timer of `timeoutSeconds * 1000 + 5000` ms.
So heartbeat polls occur at `500 + 1500 * (k+1)` ms and the deadline
fires at `500 + t * 1000 + 5000` ms after `startTime`. -/

/-- Whether one heartbeat poll resolves the wait as dead, mirroring the
branches of the heartbeat interval callback. -/
def hbPollFires (seen : Bool) (startTime now : Int) (hb : HbStat) : Bool :=
  match hb with
  | .mtime m => now - m > 3000
  | .enoent => seen || now - startTime > 7000
  | .otherErr => true

/-- Time at which the deadline timer fires, for timeout `t` seconds. -/
def deadlineFireTime (t : Nat) : Nat := 500 + t * 1000 + 5000

/-- Resolution time of the waiter in a run with no response-file
content, where `hb pollT` is the stat outcome a poll at time `pollT`
observes.  Polls are examined in time order; when the deadline fires
before the next poll (or the poll budget `fuel` is exhausted) the
deadline resolves the wait. -/
def timedWaiterAux (t : Nat) (hb : Nat → HbStat) : Bool → Nat → Nat → Nat
  | _, _, 0 => deadlineFireTime t
  | seen, k, fuel + 1 =>
    let pollT := 500 + 1500 * (k + 1)
    if deadlineFireTime t ≤ pollT then deadlineFireTime t
    else if hbPollFires seen 0 (pollT : Int) (hb pollT) then pollT
    else
      timedWaiterAux t hb
        (match hb pollT with | .mtime _ => true | _ => seen) (k + 1) fuel

/-- Resolution time from the start of the wait, with poll budget
`fuel`. -/
def timedResolveTime (t : Nat) (hb : Nat → HbStat) (fuel : Nat) : Nat :=
  timedWaiterAux t hb false 0 fuel

/-- Heartbeat behaviour of a healthy UI: every poll observes a file
freshly touched at the poll instant. -/
def freshHeartbeat : Nat → HbStat := fun pollT => .mtime (pollT : Int)

/-- Heartbeat behaviour of a UI that never started: every poll observes
ENOENT. -/
def absentHeartbeat : Nat → HbStat := fun _ => .enoent

/-! ## Intensive-chat session registry (src/cmd-intensive-chat.ts) -/

/-- `SessionInfo` of src/cmd-intensive-chat.ts; the `ChildProcess`
field is reduced to its `killed` flag, which is all the source reads. -/
structure SessionInfo where
  id : String
  processKilled : Bool
  outputDir : String
  lastHeartbeatTime : Int
  isActive : Bool
  title : String
deriving DecidableEq

/-- The `activeSessions` record: an association list from session id to
session info. -/
def SessionRegistry := List (String × SessionInfo)

/-- Lookup in the registry. -/
def lookupSession (reg : SessionRegistry) (sid : String) : Option SessionInfo :=
  match reg with
  | [] => none
  | (k, v) :: rest => if k = sid then some v else lookupSession rest sid

/-- Replace the entry for `sid`. -/
def setSession (reg : SessionRegistry) (sid : String) (v : SessionInfo) :
    SessionRegistry :=
  match reg with
  | [] => []
  | (k, w) :: rest =>
      if k = sid then (k, v) :: rest else (k, w) :: setSession rest sid v

/-- `delete activeSessions[sessionId]` (the deferred removal). -/
def removeSession (reg : SessionRegistry) (sid : String) : SessionRegistry :=
  match reg with
  | [] => []
  | (k, w) :: rest =>
      if k = sid then removeSession rest sid else (k, w) :: removeSession rest sid

/-- `isSessionActive`: an unknown or deactivated session is inactive; a
heartbeat older than 2000 ms deactivates the session and reports it
inactive; ENOENT is treated as "still starting" (active); any other
stat error deactivates.  Returns the reported activity and the updated
session record. -/
def isSessionActiveF (session : Option SessionInfo) (now : Int) (hb : HbStat) :
    Bool × Option SessionInfo :=
  match session with
  | none => (false, none)
  | some s =>
    if s.isActive = false then (false, some s)
    else
      match hb with
      | .mtime m =>
          if now - m > 2000 then (false, some { s with isActive := false })
          else (true, some s)
      | .enoent => (true, some s)
      | .otherErr => (false, some { s with isActive := false })

/-- Teardown side effects of one `stopIntensiveChatSession` call. -/
structure StopEffects where
  wroteCloseSentinel : Bool
  attemptedKill : Bool
  scheduledWorkspaceRm : Bool
deriving DecidableEq

/-- No teardown performed. -/
def noStopEffects : StopEffects :=
  { wroteCloseSentinel := false, attemptedKill := false,
    scheduledWorkspaceRm := false }

/-- `stopIntensiveChatSession`: an unknown or already-inactive session
returns `false` with no teardown; otherwise the close sentinel is
written, the process group is killed unless already killed, the session
is marked inactive and the deferred workspace removal is scheduled. -/
def stopSession (reg : SessionRegistry) (sid : String) :
    Bool × SessionRegistry × StopEffects :=
  match lookupSession reg sid with
  | none => (false, reg, noStopEffects)
  | some s =>
    if s.isActive = false then (false, reg, noStopEffects)
    else
      (true, setSession reg sid { s with isActive := false },
        { wroteCloseSentinel := true, attemptedKill := !s.processKilled,
          scheduledWorkspaceRm := true })

/-- The polling loop of `askQuestionInSession`: at iteration `k`
(iterations are 100 ms apart, at most 600 of them for the 60000 ms max
wait), a present response file is consumed and returned; otherwise an
inactive session returns `null` (modelled `none`); otherwise the loop
continues.  Exhausting the budget returns the timeout marker string.
The second component is the index of the iteration that returned. -/
def askLoopAux (resp : Nat → Option String) (act : Nat → Bool) :
    Nat → Nat → Option String × Nat
  | k, 0 => (some "User closed intensive chat session", k)
  | k, fuel + 1 =>
    match resp k with
    | some r => (some r, k)
    | none => if act k then askLoopAux resp act (k + 1) fuel else (none, k)

/-- `askQuestionInSession` wait phase: 600 polls of 100 ms. -/
def askQuestionPoll (resp : Nat → Option String) (act : Nat → Bool) :
    Option String × Nat :=
  askLoopAux resp act 0 600

/-! ## Intensive-chat workspace file protocol -/

/-- A parsed question from the input-queue file
(`{ id, text, options? }`). -/
structure ChatQuestion where
  id : String
  text : String
  options : Option (List String)
deriving DecidableEq

/-- Observable file state of one intensive-chat session directory. -/
structure ChatWorkspace where
  queueFile : Option String
  responses : List (String × String)
  closeSentinel : Bool
  dirPresent : Bool
deriving DecidableEq

/-- Fresh session directory. -/
def emptyWorkspace : ChatWorkspace :=
  { queueFile := none, responses := [], closeSentinel := false,
    dirPresent := true }

/-- Parent side of `askQuestionInSession`: write the question JSON to
the queue file (`${sessionId}.json`). -/
def parentWriteQuestion (w : ChatWorkspace) (content : String) : ChatWorkspace :=
  { w with queueFile := some content }

/-- Parent side of `askQuestionInSession`: after reading a response
file, unlink it. -/
def parentConsumeResponse (w : ChatWorkspace) (qid : String) : ChatWorkspace :=
  { w with responses := w.responses.filter (fun p => p.1 ≠ qid) }

/-- Parent side of `stopIntensiveChatSession`: write the close-session
sentinel. -/
def parentWriteCloseSentinel (w : ChatWorkspace) : ChatWorkspace :=
  { w with closeSentinel := true }

/-- Parent side of `stopIntensiveChatSession` (deferred) and of the
background sweep: `fs.rm(outputDir, { recursive: true, force: true })`
removes the whole session directory and everything in it. -/
def parentDeferredRm (_w : ChatWorkspace) : ChatWorkspace :=
  { queueFile := none, responses := [], closeSentinel := false,
    dirPresent := false }

/-- UI question poller (intensive-chat ui.tsx): when the queue file is
present and parses to a question, the UI begins displaying it
(`addNewQuestion`) and then deletes the queue file; a malformed queue
file is deleted without displaying anything.  Returns the new
workspace and the question whose display began in this step, if any. -/
def uiPollQueue (parse : String → Option ChatQuestion) (w : ChatWorkspace) :
    ChatWorkspace × Option ChatQuestion :=
  match w.queueFile with
  | none => (w, none)
  | some c =>
    match parse c with
    | some q => ({ w with queueFile := none }, some q)
    | none => ({ w with queueFile := none }, none)

/-- Sample session record used to instantiate the registry theorems. -/
def sampleSession : SessionInfo :=
  { id := "s1", processKilled := false, outputDir := "dir1",
    lastHeartbeatTime := 0, isActive := true, title := "Setup" }

/-- Sample one-entry registry. -/
def sampleRegistry : SessionRegistry := [("s1", sampleSession)]

/-- Sample queue-file decoder used to instantiate the workspace
theorems: only the content "ok" parses to a question. -/
def sampleParse : String → Option ChatQuestion := fun c =>
  if c = "ok" then some { id := "q1", text := "T", options := none } else none

/-! ## Helper lemmas -/

/-- The cleanup body bumps the run counter, so it never returns the
input state unchanged. -/
theorem cleanup_ne_self (s : WaiterState) (r : String) :
    cleanupAndResolve s r ≠ s := by
  intro h
  have h2 : s.cleanupRuns + 1 = s.cleanupRuns :=
    congrArg WaiterState.cleanupRuns h
  omega

/-- A resolved promise keeps its value across any further event. -/
theorem step_resolved_mono (s : WaiterState) (e : WaiterEvent) (v : String)
    (h : s.resolved = some v) : (waiterStep s e).resolved = some v := by
  cases e <;>
    simp only [waiterStep, watcherBody, heartbeatCheck, handleExit,
      handleError, cleanupAndResolve] <;>
    (repeat' split) <;> simp_all

/-- The cleanup body always leaves the waiter in the cleaned-up shape. -/
theorem cleanup_cleanedUp (s : WaiterState) (r : String) :
    cleanedUp (cleanupAndResolve s r) := by
  refine ⟨?_, rfl, rfl, rfl⟩
  simp [cleanupAndResolve]

/-- One step preserves the invariant "resolved implies cleaned up". -/
theorem step_cleanedUp (s : WaiterState) (e : WaiterEvent)
    (h : s.resolved.isSome → cleanedUp s) :
    (waiterStep s e).resolved.isSome → cleanedUp (waiterStep s e) := by
  cases e <;>
    simp only [waiterStep, watcherBody, heartbeatCheck, handleExit,
      handleError] <;>
    (repeat' split) <;>
    first
      | exact fun _ => cleanup_cleanedUp _ _
      | (intro hres; exact h hres)

/-- Monotonicity of resolution over a whole run. -/
theorem foldl_resolved_mono (evs : List WaiterEvent) (s : WaiterState)
    (v : String) (h : s.resolved = some v) :
    (evs.foldl waiterStep s).resolved = some v := by
  induction evs generalizing s with
  | nil => exact h
  | cons e rest ih => exact ih _ (step_resolved_mono s e v h)

/-- Invariant preservation over a whole run. -/
theorem foldl_cleanedUp (evs : List WaiterEvent) (s : WaiterState)
    (h : s.resolved.isSome → cleanedUp s) :
    (evs.foldl waiterStep s).resolved.isSome →
      cleanedUp (evs.foldl waiterStep s) := by
  induction evs generalizing s with
  | nil => exact h
  | cons e rest ih => exact ih _ (step_cleanedUp s e h)

/-- Looking up the key just replaced finds the new value, provided the
key was present. -/
theorem lookupSession_setSession (reg : SessionRegistry) (sid : String)
    (v w : SessionInfo) (h : lookupSession reg sid = some w) :
    lookupSession (setSession reg sid v) sid = some v := by
  induction reg with
  | nil => simp [lookupSession] at h
  | cons p rest ih =>
    obtain ⟨k, u⟩ := p
    by_cases hk : k = sid
    · simp [lookupSession, setSession, hk]
    · simp only [lookupSession, setSession, hk, if_false, if_neg hk] at h ⊢
      exact ih h

/-- A removed key is no longer found. -/
theorem lookupSession_removeSession (reg : SessionRegistry) (sid : String) :
    lookupSession (removeSession reg sid) sid = none := by
  induction reg with
  | nil => rfl
  | cons p rest ih =>
    obtain ⟨k, u⟩ := p
    by_cases hk : k = sid <;> simp [removeSession, hk, lookupSession, ih]

/-- A response file already present at the first poll is returned
unchanged at iteration 0. -/
theorem askLoopAux_first_some (resp : Nat → Option String)
    (act : Nat → Bool) (k fuel : Nat) (r : String) (h : resp k = some r) :
    askLoopAux resp act k (fuel + 1) = (some r, k) := by
  simp [askLoopAux, h]

/-! ## Claim theorems -/

/-- C1, counterexample: the three outcomes are not distinct at the
caller boundary.  The parent hard-deadline timeout, a dead UI process
(stale heartbeat), and an intentional empty submission (empty write
ignored by the watcher, clean exit, heartbeat then gone) all resolve
the single-question wait with the same empty-string value. -/
theorem c1_outcomes_collapse :
    (runWaiter deadlineTrace).resolved = (runWaiter deadUiTrace).resolved ∧
    (runWaiter deadUiTrace).resolved = (runWaiter emptySubmitTrace).resolved ∧
    (runWaiter deadlineTrace).resolved = some "" := by
  refine ⟨?_, ?_, ?_⟩ <;> decide

/-- C1, amended: only the UI-countdown timeout (which writes the
`__TIMEOUT__` indicator into the response file) is reported distinctly
by `request_user_input`; the parent hard-deadline, dead-UI and
empty-submission cases all resolve to the empty string and are all
reported as "User replied with empty input.". -/
theorem c1_amended_only_ui_timeout_distinct :
    (runWaiter uiTimeoutTrace).resolved = some "__TIMEOUT__" ∧
    (runWaiter deadlineTrace).resolved = some "" ∧
    (runWaiter deadUiTrace).resolved = some "" ∧
    (runWaiter emptySubmitTrace).resolved = some "" ∧
    requestUserInputText "__TIMEOUT__" ≠ requestUserInputText "" ∧
    requestUserInputText "" = "User replied with empty input." := by
  refine ⟨?_, ?_, ?_, ?_, ?_, ?_⟩ <;> decide

/-- C2, counterexample: the answer " a " comes back as "a" in
single-question mode (leading and trailing whitespace both removed by
`data.trim()`) and as " a " unchanged in intensive-chat mode (no trim
at all); neither equals the trailing-only trim " a", and the two modes
disagree with each other, so there is no uniform trailing-whitespace
trim. -/
theorem c2_no_uniform_trailing_trim :
    (runWaiter [.readStart (some " a "), .readDone]).resolved = some "a" ∧
    (askQuestionPoll (fun _ => some " a ") (fun _ => true)).1 = some " a " ∧
    trailingTrim " a " = " a" ∧
    ("a" : String) ≠ " a" ∧
    (" a " : String) ≠ " a" := by
  refine ⟨?_, ?_, ?_, ?_, ?_⟩ <;> decide

/-- C2, amended: a non-empty single-question answer is received as its
JS `trim()` (leading and trailing whitespace removed), while an
intensive-chat answer present in the response file is received exactly
as written, with no trim. -/
theorem c2_amended_per_mode_trim (w : String) (resp : Nat → Option String)
    (act : Nat → Bool) :
    (w ≠ "" →
      (runWaiter [.readStart (some w), .readDone]).resolved =
        some (jsTrim w)) ∧
    (resp 0 = some w → (askQuestionPoll resp act).1 = some w) := by
  constructor
  · intro hw
    simp [runWaiter, waiterStep, initWaiter, watcherBody, hw,
      cleanupAndResolve]
  · intro hr
    have h600 : (600 : Nat) = 599 + 1 := rfl
    rw [askQuestionPoll, h600, askLoopAux_first_some resp act 0 599 w hr]

/-- C4, counterexample: when the deadline fires while the watcher's
read of a real answer is still in flight, the read callback runs the
cleanup body a second time after the first resolution, so cleanup does
not run exactly once. -/
theorem c4_cleanup_runs_twice :
    (runWaiter doubleCleanupTrace).cleanupRuns = 2 ∧
    (runWaiter doubleCleanupTrace).cleanupRuns ≠ 1 ∧
    (runWaiter doubleCleanupTrace).resolved = some "" := by
  refine ⟨?_, ?_, ?_⟩ <;> decide

/-- C4, amended: the promise still resolves exactly once — the first
resolution value is final across any further events — and whenever the
wait has resolved, the cleanup body has run at least once and the
heartbeat interval, watcher and deadline timer are all cleared; but the
idempotent cleanup body may run more than once. -/
theorem c4_amended_single_resolution (evs more : List WaiterEvent)
    (v : String) :
    ((runWaiter evs).resolved = some v →
      (runWaiter (evs ++ more)).resolved = some v) ∧
    ((runWaiter evs).resolved.isSome → cleanedUp (runWaiter evs)) := by
  constructor
  · intro h
    rw [runWaiter, List.foldl_append]
    exact foldl_resolved_mono more _ v h
  · exact foldl_cleanedUp evs initWaiter (by intro h; simp [initWaiter] at h)

/-- Witness for the amended C4 at a concrete run. -/
theorem c4_amended_single_resolution_witness :
    (runWaiter ([WaiterEvent.deadline] ++ [WaiterEvent.procError])).resolved =
      some "" ∧
    cleanedUp (runWaiter [WaiterEvent.deadline]) :=
  ⟨(c4_amended_single_resolution [WaiterEvent.deadline] [WaiterEvent.procError]
      "").1 (by decide),
   (c4_amended_single_resolution [WaiterEvent.deadline] [] "").2 (by decide)⟩

/-- C5: the heartbeat monitor distinguishes never-seen from
seen-then-gone.  While the file has never been observed fresh, an
ENOENT resolves the wait as dead exactly when the 7000 ms post-launch
grace period has elapsed; once the file has been observed, an ENOENT
resolves as dead immediately on that poll; and a modification time
older than the 3000 ms staleness threshold resolves as dead on that
poll, independently of the deadline. -/
theorem c5_heartbeat_classification (s : WaiterState) (now mt : Int) :
    (s.heartbeatFileSeen = false →
      (heartbeatCheck s now .enoent = cleanupAndResolve s "" ↔
        now - s.startTime > 7000)) ∧
    (s.heartbeatFileSeen = true →
      heartbeatCheck s now .enoent = cleanupAndResolve s "") ∧
    (now - mt > 3000 →
      heartbeatCheck s now (.mtime mt) = cleanupAndResolve s "") := by
  refine ⟨?_, ?_, ?_⟩
  · intro hseen
    constructor
    · intro heq
      by_contra hng
      simp only [heartbeatCheck, hseen, Bool.false_eq_true, if_false,
        if_neg hng] at heq
      exact cleanup_ne_self s "" heq.symm
    · intro hgt
      simp [heartbeatCheck, hseen, hgt]
  · intro hseen
    simp [heartbeatCheck, hseen]
  · intro hstale
    simp [heartbeatCheck, hstale]

/-- Witness for C5 at concrete poll observations. -/
theorem c5_heartbeat_classification_witness :
    heartbeatCheck initWaiter 8000 .enoent = cleanupAndResolve initWaiter "" ∧
    heartbeatCheck { initWaiter with heartbeatFileSeen := true } 0 .enoent =
      cleanupAndResolve { initWaiter with heartbeatFileSeen := true } "" ∧
    heartbeatCheck initWaiter 4000 (.mtime 0) =
      cleanupAndResolve initWaiter "" :=
  ⟨((c5_heartbeat_classification initWaiter 8000 0).1 rfl).mpr (by decide),
   (c5_heartbeat_classification { initWaiter with heartbeatFileSeen := true }
      0 0).2.1 rfl,
   (c5_heartbeat_classification initWaiter 4000 0).2.2 (by decide)⟩

/-- C6: the child's own exit event resolves the wait (with the
no-answer empty string) exactly when the exit code differs from 0
(including a signal exit, JS `null`) and the wait is still pending, and
the spawn-error handler resolves exactly when the wait is still
pending; an exit with code 0 never changes the waiter state. -/
theorem c6_exit_resolution (s : WaiterState) (code : Option Int) :
    handleExit s (some 0) = s ∧
    (handleExit s code = cleanupAndResolve s "" ↔
      code ≠ some 0 ∧ (s.watcherOpen = true ∨ s.timeoutActive = true)) ∧
    (handleError s = cleanupAndResolve s "" ↔
      (s.watcherOpen = true ∨ s.timeoutActive = true)) := by
  refine ⟨?_, ?_, ?_⟩
  · simp [handleExit]
  · constructor
    · intro heq
      by_contra hng
      rw [handleExit, if_neg hng] at heq
      exact cleanup_ne_self s "" heq.symm
    · intro hc
      rw [handleExit, if_pos hc]
  · constructor
    · intro heq
      by_contra hng
      rw [handleError, if_neg hng] at heq
      exact cleanup_ne_self s "" heq.symm
    · intro hc
      rw [handleError, if_pos hc]

/-- Witness for C6 at concrete exit codes in the pending initial
state. -/
theorem c6_exit_resolution_witness :
    handleExit initWaiter (some 0) = initWaiter ∧
    handleExit initWaiter (some 1) = cleanupAndResolve initWaiter "" ∧
    handleExit initWaiter none = cleanupAndResolve initWaiter "" :=
  ⟨(c6_exit_resolution initWaiter (some 0)).1,
   (c6_exit_resolution initWaiter (some 1)).2.1.mpr (by decide),
   (c6_exit_resolution initWaiter none).2.1.mpr (by decide)⟩

/-- C10: a write of empty content never resolves the wait through the
file watcher — the watcher callback resolves (with the trimmed content)
exactly when the content is non-empty — and a watcher change event
carrying empty content leaves the whole waiter state unchanged, so the
wait can only resolve later through the other triggers. -/
theorem c10_empty_write_never_resolves (s : WaiterState) (content : String) :
    watcherBody s "" = s ∧
    (watcherBody s content = cleanupAndResolve s (jsTrim content) ↔
      content ≠ "") ∧
    (s.pendingReads = [] →
      waiterStep (waiterStep s (.readStart (some ""))) .readDone = s) := by
  refine ⟨?_, ?_, ?_⟩
  · simp [watcherBody]
  · constructor
    · intro heq
      by_contra hng
      rw [watcherBody, if_neg (by simpa using hng)] at heq
      exact cleanup_ne_self s _ heq.symm
    · intro hc
      rw [watcherBody, if_pos (by simpa using hc)]
  · intro hnil
    obtain ⟨w, t, hbA, hbS, st, pr, res, cr⟩ := s
    simp only at hnil
    subst hnil
    cases w <;> simp [waiterStep, watcherBody]

/-- Witness for C10 at a concrete pending state and contents. -/
theorem c10_empty_write_never_resolves_witness :
    watcherBody initWaiter "" = initWaiter ∧
    watcherBody initWaiter "yes" = cleanupAndResolve initWaiter (jsTrim "yes") ∧
    waiterStep (waiterStep initWaiter (.readStart (some ""))) .readDone =
      initWaiter :=
  ⟨(c10_empty_write_never_resolves initWaiter "").1,
   (c10_empty_write_never_resolves initWaiter "yes").2.1.mpr (by decide),
   (c10_empty_write_never_resolves initWaiter "").2.2 rfl⟩

/-- C3, counterexample: with timeout t = 30 s and no heartbeat activity
at all, the wait resolves at 8000 ms (the first heartbeat poll after
the 7000 ms grace period), far earlier than t seconds. -/
theorem c3_no_heartbeat_resolves_before_t :
    timedResolveTime 30 absentHeartbeat 10 = 8000 ∧
    (8000 : Nat) < 30 * 1000 := by
  refine ⟨?_, ?_⟩ <;> decide

/-- C3, amended: when the heartbeat stays fresh at every poll (and no
response arrives), the wait resolves exactly at the hard deadline
`500 + t * 1000 + 5000` ms — never earlier than t seconds and never
later than t seconds plus the fixed 5500 ms margin (5000 ms deadline
buffer plus the 500 ms setup delay); with no heartbeat activity it can
resolve much earlier, via the grace-period path. -/
theorem c3_amended_fresh_heartbeat_window (t fuel : Nat) (h : 0 < t) :
    timedResolveTime t freshHeartbeat fuel = deadlineFireTime t ∧
    t * 1000 ≤ deadlineFireTime t ∧
    deadlineFireTime t ≤ t * 1000 + 5500 := by
  have main : ∀ (n : Nat) (seen : Bool) (k : Nat),
      timedWaiterAux t freshHeartbeat seen k n = deadlineFireTime t := by
    intro n
    induction n with
    | zero => intro seen k; rfl
    | succ m ih =>
      intro seen k
      rw [timedWaiterAux]
      split
      · rfl
      · rw [if_neg ?hno]
        case hno =>
          simp only [freshHeartbeat, hbPollFires, decide_eq_true_eq]
          omega
        exact ih true (k + 1)
  exact ⟨main fuel false 0, by unfold deadlineFireTime; omega,
    by unfold deadlineFireTime; omega⟩

/-- Witness for the amended C3 at t = 30 s. -/
theorem c3_amended_fresh_heartbeat_window_witness :
    0 < 30 ∧
    (timedResolveTime 30 freshHeartbeat 100 = deadlineFireTime 30 ∧
      30 * 1000 ≤ deadlineFireTime 30 ∧
      deadlineFireTime 30 ≤ 30 * 1000 + 5500) :=
  ⟨by decide, c3_amended_fresh_heartbeat_window 30 100 (by decide)⟩

/-- C7: a session whose heartbeat modification time has exceeded the
2000 ms staleness threshold is reported inactive by `isSessionActive`,
and `askQuestionInSession` on it returns the dead-session marker
(`null`) at poll iteration 0 — within one 100 ms poll interval — rather
than consuming the 600-iteration (60 s) maximum wait. -/
theorem c7_stale_heartbeat_fast_dead (resp : Nat → Option String)
    (si : SessionInfo) (now mt : Int) (h0 : resp 0 = none)
    (hact : si.isActive = true) (hstale : now - mt > 2000) :
    (isSessionActiveF (some si) now (.mtime mt)).1 = false ∧
    askQuestionPoll resp
      (fun _ => (isSessionActiveF (some si) now (.mtime mt)).1) =
      (none, 0) := by
  have hdead : (isSessionActiveF (some si) now (.mtime mt)).1 = false := by
    simp [isSessionActiveF, hact, hstale]
  refine ⟨hdead, ?_⟩
  have h600 : (600 : Nat) = 599 + 1 := rfl
  rw [askQuestionPoll, h600]
  simp [askLoopAux, h0, hdead]

/-- Witness for C7 at a concrete stale session. -/
theorem c7_stale_heartbeat_fast_dead_witness :
    (isSessionActiveF (some sampleSession) 3000 (.mtime 0)).1 = false ∧
    askQuestionPoll (fun _ => none)
      (fun _ => (isSessionActiveF (some sampleSession) 3000 (.mtime 0)).1) =
      (none, 0) :=
  c7_stale_heartbeat_fast_dead (fun _ => none) sampleSession 3000 0 rfl rfl
    (by decide)

/-- C8: stopping an active session succeeds, writes the close sentinel,
schedules the deferred workspace removal, and records the session as
inactive; a second stop — whether before or after the deferred registry
removal — returns failure and performs no teardown at all; and an
inactive session is never reported active again by `isSessionActive`
(deactivation is terminal). -/
theorem c8_close_twice_terminal (reg : SessionRegistry) (sid : String)
    (s : SessionInfo) (now : Int) (hb : HbStat)
    (hfind : lookupSession reg sid = some s) (hact : s.isActive = true) :
    (stopSession reg sid).1 = true ∧
    (stopSession reg sid).2.2.wroteCloseSentinel = true ∧
    (stopSession reg sid).2.2.scheduledWorkspaceRm = true ∧
    lookupSession (stopSession reg sid).2.1 sid =
      some { s with isActive := false } ∧
    (stopSession (stopSession reg sid).2.1 sid).1 = false ∧
    (stopSession (stopSession reg sid).2.1 sid).2.2 = noStopEffects ∧
    (stopSession (removeSession (stopSession reg sid).2.1 sid) sid).1 =
      false ∧
    (isSessionActiveF (some { s with isActive := false }) now hb).1 = false ∧
    (isSessionActiveF (some { s with isActive := false }) now hb).2 =
      some { s with isActive := false } := by
  have h1 : stopSession reg sid =
      (true, setSession reg sid { s with isActive := false },
        { wroteCloseSentinel := true, attemptedKill := !s.processKilled,
          scheduledWorkspaceRm := true }) := by
    simp [stopSession, hfind, hact]
  have h2 : lookupSession (setSession reg sid { s with isActive := false })
      sid = some { s with isActive := false } :=
    lookupSession_setSession reg sid _ s hfind
  rw [h1]
  refine ⟨rfl, rfl, rfl, h2, ?_, ?_, ?_, ?_, ?_⟩
  · simp [stopSession, h2]
  · simp [stopSession, h2]
  · simp [stopSession, lookupSession_removeSession]
  · simp [isSessionActiveF]
  · simp [isSessionActiveF]

/-- Witness for C8 on a concrete one-session registry. -/
theorem c8_close_twice_terminal_witness :
    (stopSession sampleRegistry "s1").1 = true ∧
    (stopSession (stopSession sampleRegistry "s1").2.1 "s1").1 = false ∧
    (stopSession (stopSession sampleRegistry "s1").2.1 "s1").2.2 =
      noStopEffects := by
  have h := c8_close_twice_terminal sampleRegistry "s1" sampleSession 0
    .enoent rfl rfl
  exact ⟨h.1, h.2.2.2.2.1, h.2.2.2.2.2.1⟩

/-- C9, counterexample: the claim that the parent never deletes the
input-queue file fails on the workspace state reached when a question
has been written but not yet consumed: the parent's deferred
`fs.rm(outputDir, recursive)` during teardown removes the whole session
directory, input-queue file included. -/
theorem c9_parent_rm_deletes_queue :
    (parentWriteQuestion emptyWorkspace "q1").queueFile = some "q1" ∧
    (parentDeferredRm (parentWriteQuestion emptyWorkspace "q1")).queueFile =
      none :=
  ⟨rfl, rfl⟩

/-- C9, amended: during the ask protocol the parent never deletes the
input-queue file as an individual file — writing a question, consuming
a response file and writing the close sentinel all leave it in place
(the only parent deletion of it is the whole-workspace removal during
teardown) — and the UI deletes a parseable queue file only in the very
poll step in which it begins displaying the question it contains. -/
theorem c9_amended_queue_discipline (w : ChatWorkspace) (content qid : String)
    (parse : String → Option ChatQuestion) :
    (parentWriteQuestion w content).queueFile = some content ∧
    (parentConsumeResponse w qid).queueFile = w.queueFile ∧
    (parentWriteCloseSentinel w).queueFile = w.queueFile ∧
    (∀ c q, w.queueFile = some c → parse c = some q →
      uiPollQueue parse w = ({ w with queueFile := none }, some q)) := by
  refine ⟨rfl, rfl, rfl, ?_⟩
  intro c q hq hp
  simp [uiPollQueue, hq, hp]

/-- Witness for the amended C9 on a concrete workspace. -/
theorem c9_amended_queue_discipline_witness :
    (parentWriteQuestion emptyWorkspace "ok").queueFile = some "ok" ∧
    uiPollQueue sampleParse (parentWriteQuestion emptyWorkspace "ok") =
      ({ parentWriteQuestion emptyWorkspace "ok" with queueFile := none },
        some { id := "q1", text := "T", options := none }) := by
  have h := c9_amended_queue_discipline (parentWriteQuestion emptyWorkspace
    "ok") "ok" "r1" sampleParse
  exact ⟨h.1, h.2.2.2 "ok" _ rfl (by decide)⟩

/-- Witness for the amended C2 at the answer " a ". -/
theorem c2_amended_per_mode_trim_witness :
    (runWaiter [.readStart (some " a "), .readDone]).resolved =
      some (jsTrim " a ") ∧
    (askQuestionPoll (fun _ => some " a ") (fun _ => true)).1 = some " a " :=
  ⟨(c2_amended_per_mode_trim " a " (fun _ => some " a ")
      (fun _ => true)).1 (by decide),
   (c2_amended_per_mode_trim " a " (fun _ => some " a ")
      (fun _ => true)).2 rfl⟩
